import Mathlib

/-!
Verification of the 2FAuto TOTP microservice core.

The development shallowly embeds the authentication/verification core of the
service: TOTP code generation and verification (`app/core/totp.py`), the API-key
and HMAC-signature request authenticator (`app/middleware/auth.py`), and the
startup configuration validation (`app/core/config.py`).

Third-party library primitives (pyotp's per-time-step HOTP code derivation, the
HMAC-SHA256 hex digest, and base32 validity checking) are cryptographic black
boxes external to the repository; they are passed in as explicit function
parameters (`codeAt`, `hmacHex`, `validBase32`), so every theorem quantifies
over them.  Python's `hmac.compare_digest` on `str` arguments, including its
`TypeError` on non-ASCII input, is embedded exactly, since several claims hinge
on it.  Times are unix seconds (`Nat` for clock readings, `Int` for parsed
timestamps and time-step counters, matching Python's unbounded integers).
-/

namespace TwoFAuto

/-! ## TOTP engine (`app/core/totp.py`, backed by pyotp) -/

/-- pyotp's `timecode`: the time-step for unix time `t` with the default
30-second interval, `int(t / 30)`.  Unix clock readings are nonnegative, so
truncation and floor agree and we can take `t : Nat`. -/
def timeStep (t : Nat) : Int :=
  (t : Int) / 30

/-- The response dictionary built by `get_otp` in `app/core/totp.py`. -/
structure OtpResponse where
  otp : String
  valid_for_seconds : Nat
  timestamp : Nat
  deriving Repr, DecidableEq

/-- pyotp's `totp.now()`: the code for the time-step containing the clock
reading `t`.  `codeAt` is the per-time-step code derivation (`totp.at`),
a parameter since HOTP/SHA-1 lives in the pyotp library. -/
def totp_now (codeAt : Int → String) (t : Nat) : String :=
  codeAt (timeStep t)

/-- `get_otp` from `app/core/totp.py`: the current code, the seconds remaining
in the 30-second window, and the clock reading itself. -/
def get_otp (codeAt : Int → String) (now : Nat) : OtpResponse :=
  { otp := totp_now codeAt now
    valid_for_seconds := 30 - now % 30
    timestamp := now }

/-- pyotp's `totp.verify(code, for_time, valid_window)`: the candidate is
accepted iff it matches the code at some offset `i ∈ [-w, w]` from the current
time-step (the `for i in range(-valid_window, valid_window + 1)` loop).
pyotp compares via `utils.strings_equal`, which first NFKC-normalizes *both*
strings (`unicodedata.normalize("NFKC", ·)`) and then does a constant-time
comparison of their UTF-8 bytes (injective in the strings, so functionally
equality of the normalized strings, and it cannot raise).  The normalization
`nfkc` is a Unicode-library primitive and is passed as a parameter. -/
def totp_verify (nfkc : String → String) (codeAt : Int → String) (w : Nat) (t : Nat)
    (candidate : String) : Bool :=
  (List.range (2 * w + 1)).any fun j =>
    nfkc candidate == nfkc (codeAt (timeStep t + (j : Int) - (w : Int)))

/-- `verify_otp` from `app/core/totp.py`: `totp.verify(code, valid_window=1)`. -/
def verify_otp (nfkc : String → String) (codeAt : Int → String) (t : Nat)
    (code : String) : Bool :=
  totp_verify nfkc codeAt 1 t code

/-- A concrete fragment of NFKC normalization, used to instantiate `nfkc` at
concrete inputs: Unicode gives the fullwidth digits U+FF10–U+FF19 compatibility
decompositions to the ASCII digits 0–9, and the superscripts U+00B9, U+00B2,
U+00B3 to the ASCII digits 1, 2, 3, while ASCII characters are NFKC-invariant;
so this function agrees with `unicodedata.normalize("NFKC", ·)` on every
string over ASCII, fullwidth digits and those superscripts. -/
def nfkcFold (s : String) : String :=
  String.mk (s.data.map fun c =>
    if 0xFF10 ≤ c.toNat ∧ c.toNat ≤ 0xFF19 then Char.ofNat (c.toNat - 0xFF10 + 48)
    else if c.toNat = 0xB9 then '1'
    else if c.toNat = 0xB2 then '2'
    else if c.toNat = 0xB3 then '3'
    else c)

/-! ## Request authenticator (`app/middleware/auth.py`) -/

/-- Outcome of a FastAPI auth dependency: it either returns a value, raises an
`HTTPException` with a status and detail, or escapes with a Python `TypeError`
(which the service's generic handler surfaces as an internal error). -/
inductive Outcome (α : Type) where
  | ok (a : α)
  | httpError (status : Nat) (detail : String)
  | typeError
  deriving Repr, DecidableEq

/-- A string all of whose characters are ASCII. -/
def isAsciiStr (s : String) : Bool :=
  s.data.all fun c => c.toNat < 128

/-- Python's `hmac.compare_digest` on two `str` arguments: raises `TypeError`
unless both strings are ASCII-only, and otherwise compares them byte for byte
in constant time (functionally, string equality). -/
def compare_digest (a b : String) : Except Unit Bool :=
  if isAsciiStr a && isAsciiStr b then .ok (a == b) else .error ()

/-- `SIGNATURE_MAX_AGE_SECONDS` from `app/middleware/auth.py`. -/
def SIGNATURE_MAX_AGE_SECONDS : Nat := 30

/-- `require_api_key` from `app/middleware/auth.py`: 401 when the `X-API-Key`
header is absent, `TypeError` when `hmac.compare_digest` rejects the strings,
403 on mismatch, and the header value itself on success. -/
def require_api_key (apiKey : String) (x_api_key : Option String) : Outcome String :=
  match x_api_key with
  | none => .httpError 401 "X-API-Key header is required"
  | some k =>
    match compare_digest k apiKey with
    | .error _ => .typeError
    | .ok b => if b then .ok k else .httpError 403 "Invalid API key"

/-- Python `int(s)` on a decimal string: optional surrounding ASCII whitespace,
an optional sign, then a nonempty digit sequence in which single underscores
may separate digits.  `prevDigit` records whether the previous character was a
digit (an underscore is legal only there, and the number may not end on one). -/
def pyIntDigits (acc : Nat) (prevDigit : Bool) : List Char → Option Nat
  | [] => if prevDigit then some acc else none
  | c :: rest =>
    if c.isDigit then pyIntDigits (acc * 10 + (c.toNat - 48)) true rest
    else if c == '_' && prevDigit then pyIntDigits acc false rest
    else none

/-- Whitespace stripped by Python's `int` before parsing (CPython's
`Py_ISSPACE` over ASCII: space, `\t`, `\n`, `\v`, `\f`, `\r`). -/
def isPySpace (c : Char) : Bool :=
  c == ' ' || c == '\t' || c == '\n' || c == '\r' || c.toNat == 11 || c.toNat == 12

/-- The non-ASCII code points CPython's `Py_UNICODE_ISSPACE` classifies as
whitespace (the White_Space code points ≥ 127 of its Unicode tables). -/
def pyNonAsciiSpaces : List Nat :=
  [0x85, 0xA0, 0x1680, 0x2000, 0x2001, 0x2002, 0x2003, 0x2004, 0x2005, 0x2006,
   0x2007, 0x2008, 0x2009, 0x200A, 0x2028, 0x2029, 0x202F, 0x205F, 0x3000]

/-- The starts of the non-ASCII decimal-digit blocks of CPython's Unicode
tables (`Py_UNICODE_TODECIMAL`): each block is ten consecutive code points
carrying the decimal values 0–9. -/
def pyDecimalStarts : List Nat :=
  [0x660, 0x6F0, 0x7C0, 0x966, 0x9E6, 0xA66, 0xAE6, 0xB66, 0xBE6, 0xC66,
   0xCE6, 0xD66, 0xDE6, 0xE50, 0xED0, 0xF20, 0x1040, 0x1090, 0x17E0, 0x1810,
   0x1946, 0x19D0, 0x1A80, 0x1A90, 0x1B50, 0x1BB0, 0x1C40, 0x1C50, 0xA620,
   0xA8D0, 0xA900, 0xA9D0, 0xA9F0, 0xAA50, 0xABF0, 0xFF10, 0x104A0, 0x10D30,
   0x11066, 0x110F0, 0x11136, 0x111D0, 0x112F0, 0x11450, 0x114D0, 0x11650,
   0x116C0, 0x11730, 0x118E0, 0x11950, 0x11C50, 0x11D50, 0x11DA0, 0x16A60,
   0x16AC0, 0x16B50, 0x1D7CE, 0x1D7D8, 0x1D7E2, 0x1D7EC, 0x1D7F6, 0x1E140,
   0x1E2F0, 0x1E950, 0x1FBF0]

/-- `Py_UNICODE_TODECIMAL` for the non-ASCII code point `n`: its decimal
value if it lies in a decimal-digit block, else nothing. -/
def pyToDecimal (n : Nat) : Option Nat :=
  (pyDecimalStarts.find? fun s => s ≤ n && n ≤ s + 9).map fun s => n - s

/-- One character of CPython's `_PyUnicode_TransformDecimalAndSpaceToASCII`,
which `int(str)` applies before the ASCII parse: code points below 127 are
kept, non-ASCII whitespace becomes a space, non-ASCII decimal digits become
the ASCII digit of the same value, and anything else becomes `?` (which the
ASCII parse then rejects). -/
def pyTransformChar (c : Char) : Char :=
  if c.toNat < 127 then c
  else if pyNonAsciiSpaces.contains c.toNat then ' '
  else
    match pyToDecimal c.toNat with
    | some d => Char.ofNat (48 + d)
    | none => '?'

/-- Python's `int(s)`: `some n` on success, `none` when `int` raises
`ValueError`.  The string is first run through the decimal-and-space
transform, then stripped of surrounding whitespace and parsed as an optional
sign followed by digits with optional single underscores between them. -/
def pyInt (s : String) : Option Int :=
  let t := s.data.map pyTransformChar
  let cs := ((t.dropWhile isPySpace).reverse.dropWhile isPySpace).reverse
  match cs with
  | [] => none
  | c :: rest =>
    if c == '+' then (pyIntDigits 0 false rest).map fun n => (n : Int)
    else if c == '-' then (pyIntDigits 0 false rest).map fun n => -(n : Int)
    else (pyIntDigits 0 false cs).map fun n => (n : Int)

/-- `require_hmac_signature` from `app/middleware/auth.py`.  The API-key
dependency runs first; then the two headers are required (401), the timestamp
must parse as an integer (400), the request must be fresh
(`|now − request_time| ≤ 30`, else 401), and finally the provided signature is
compared in constant time against `hmacHex api_key x_timestamp`, the
HMAC-SHA256 hex digest of the raw timestamp header keyed by the API key
(mismatch 403).  `hmacHex` abstracts `hmac.new(..., hashlib.sha256).hexdigest()`
and `now` the `int(time.time())` read at the freshness check. -/
def require_hmac_signature (apiKey : String) (hmacHex : String → String → String)
    (now : Int) (x_api_key x_timestamp x_signature : Option String) : Outcome Unit :=
  match require_api_key apiKey x_api_key with
  | .httpError s d => .httpError s d
  | .typeError => .typeError
  | .ok api_key =>
    match x_timestamp with
    | none => .httpError 401 "X-Timestamp header is required"
    | some ts =>
      match x_signature with
      | none => .httpError 401 "X-Signature header is required"
      | some sig =>
        match pyInt ts with
        | none => .httpError 400 "X-Timestamp must be a unix integer"
        | some request_time =>
          if (now - request_time).natAbs > SIGNATURE_MAX_AGE_SECONDS then
            .httpError 401 "Request timestamp is expired"
          else
            let expected := hmacHex api_key ts
            match compare_digest sig expected with
            | .error _ => .typeError
            | .ok b => if b then .ok () else .httpError 403 "Invalid request signature"

/-! ## Startup configuration (`app/core/config.py`) -/

/-- The fields of `Settings` the authentication core reads. -/
structure Settings where
  API_KEY : String
  OTP_SECRET : String
  deriving Repr, DecidableEq

/-- `Settings.__init__` + `Settings._validate` from `app/core/config.py`:
constructing the process-wide settings from the environment values either
succeeds or hits `sys.exit(1)` with a fatal message before the app is built.
`validBase32` abstracts pyotp's base32 decoding check (`totp.now()` raising on
an undecodable secret). -/
def loadSettings (validBase32 : String → Bool) (api_key otp_secret : String) :
    Except String Settings :=
  let missing := (if api_key = "" then ["API_KEY"] else [])
    ++ (if otp_secret = "" then ["OTP_SECRET"] else [])
  if missing ≠ [] then
    .error ("Missing required environment variables: " ++ String.intercalate ", " missing)
  else if ¬ validBase32 otp_secret then
    .error "OTP_SECRET is not a valid base32-encoded TOTP secret"
  else
    .ok { API_KEY := api_key, OTP_SECRET := otp_secret }

end TwoFAuto

namespace TwoFAuto

/-! ## Theorems about the TOTP engine -/

/-- Unfolding the `valid_window=1` loop of `totp.verify`: the candidate is
accepted iff its NFKC normalization equals that of the code at time-step
`T−1`, `T` or `T+1`. -/
theorem verify_otp_eq_true_iff (nfkc : String → String) (codeAt : Int → String)
    (t : Nat) (cand : String) :
    verify_otp nfkc codeAt t cand = true ↔
      nfkc cand = nfkc (codeAt (timeStep t - 1)) ∨
        nfkc cand = nfkc (codeAt (timeStep t)) ∨
        nfkc cand = nfkc (codeAt (timeStep t + 1)) := by
  show (List.range (2 * 1 + 1)).any
      (fun j => nfkc cand == nfkc (codeAt (timeStep t + (j : Int) - ((1 : Nat) : Int))))
      = true ↔ _
  rw [show List.range (2 * 1 + 1) = [0, 1, 2] from rfl]
  have e0 : timeStep t + ((0 : Nat) : Int) - ((1 : Nat) : Int) = timeStep t - 1 := by
    push_cast; ring
  have e1 : timeStep t + ((1 : Nat) : Int) - ((1 : Nat) : Int) = timeStep t := by
    push_cast; ring
  have e2 : timeStep t + ((2 : Nat) : Int) - ((1 : Nat) : Int) = timeStep t + 1 := by
    push_cast; ring
  simp only [List.any_cons, List.any_nil, Bool.or_false, Bool.or_eq_true, beq_iff_eq,
    e0, e1, e2]

/-- Counterexample to claim C1 as stated: the fullwidth-digit candidate
"１２３４５６" equals none of the codes for time-steps `T−1`, `T`, `T+1`
(all "123456"), yet `verify_otp` accepts it, because pyotp NFKC-normalizes
both strings before comparing and NFKC folds the fullwidth digits to
"123456". -/
theorem verify_otp_universal_cex :
    "１２３４５６" ≠ (fun _ : Int => "123456") (timeStep 60 - 1) ∧
    "１２３４５６" ≠ (fun _ : Int => "123456") (timeStep 60) ∧
    "１２３４５６" ≠ (fun _ : Int => "123456") (timeStep 60 + 1) ∧
    verify_otp nfkcFold (fun _ => "123456") 60 "１２３４５６" = true :=
  ⟨by decide, by decide, by decide, by decide⟩

/-- Claim C1 (amended): `verify_otp` at a verification time mapping to
time-step `T` accepts a candidate exactly when the candidate's NFKC
normalization equals that of the code for time-step `T−1`, `T` or `T+1`;
consequently a code generated at time-step `Tg` is accepted at verification
times mapping to `Tg−1`, `Tg` and `Tg+1`, and is rejected at `Tg−2` and
`Tg+2` whenever its normalized form differs from the three normalized codes
of the verification window (distinct codes in the neighbourhood). -/
theorem verify_otp_pm1_tolerance (nfkc : String → String) (codeAt : Int → String)
    (tv tg : Nat) (cand : String) :
    (verify_otp nfkc codeAt tv cand = true ↔
      nfkc cand = nfkc (codeAt (timeStep tv - 1)) ∨
        nfkc cand = nfkc (codeAt (timeStep tv)) ∨
        nfkc cand = nfkc (codeAt (timeStep tv + 1))) ∧
    (timeStep tv = timeStep tg - 1 ∨ timeStep tv = timeStep tg ∨
        timeStep tv = timeStep tg + 1 →
      verify_otp nfkc codeAt tv (codeAt (timeStep tg)) = true) ∧
    (timeStep tv = timeStep tg - 2 ∨ timeStep tv = timeStep tg + 2 →
      nfkc (codeAt (timeStep tg)) ≠ nfkc (codeAt (timeStep tv - 1)) →
      nfkc (codeAt (timeStep tg)) ≠ nfkc (codeAt (timeStep tv)) →
      nfkc (codeAt (timeStep tg)) ≠ nfkc (codeAt (timeStep tv + 1)) →
      verify_otp nfkc codeAt tv (codeAt (timeStep tg)) = false) := by
  refine ⟨verify_otp_eq_true_iff nfkc codeAt tv cand, ?_, ?_⟩
  · intro h
    rw [verify_otp_eq_true_iff]
    rcases h with h | h | h
    · exact Or.inr (Or.inr (by rw [h]; ring_nf))
    · exact Or.inr (Or.inl (by rw [h]))
    · exact Or.inl (by rw [h]; ring_nf)
  · intro _ h1 h2 h3
    rw [← Bool.not_eq_true, verify_otp_eq_true_iff]
    rintro (h | h | h)
    · exact h1 h
    · exact h2 h
    · exact h3 h

/-- Witness for C1 at concrete inputs: with codes that differ across the
relevant steps, the code of time-step 3 (generated at unix time 100) is
accepted at unix time 130 (time-step 4 = 3+1) and rejected at unix time 160
(time-step 5 = 3+2). -/
theorem verify_otp_pm1_tolerance_witness :
    verify_otp nfkcFold (fun i => if i = 3 then "a" else "b") 130
      ((fun i : Int => if i = 3 then "a" else "b") (timeStep 100)) = true ∧
    verify_otp nfkcFold (fun i => if i = 3 then "a" else "b") 160
      ((fun i : Int => if i = 3 then "a" else "b") (timeStep 100)) = false :=
  ⟨(verify_otp_pm1_tolerance nfkcFold (fun i => if i = 3 then "a" else "b")
      130 100 "x").2.1 (by decide),
   (verify_otp_pm1_tolerance nfkcFold (fun i => if i = 3 then "a" else "b")
      160 100 "x").2.2 (by decide) (by decide) (by decide) (by decide)⟩

/-- Claim C5: at unix time `now`, `get_otp` returns the code for time-step
`⌊now / 30⌋`, a remaining validity of `30 − (now mod 30)` seconds, and the
clock reading `now` itself. -/
theorem get_otp_fields (codeAt : Int → String) (now : Nat) :
    (get_otp codeAt now).otp = codeAt ((now / 30 : Nat) : Int) ∧
    (get_otp codeAt now).valid_for_seconds = 30 - now % 30 ∧
    (get_otp codeAt now).timestamp = now := by
  refine ⟨?_, rfl, rfl⟩
  show codeAt ((now : Int) / 30) = codeAt ((now / 30 : Nat) : Int)
  congr 1

/-- Counterexample to claim C7 as stated: the candidate "1²3456" is not a
6-digit string (the superscript ² is not a digit), yet `verify_otp` accepts
it when the window code is "123456", because NFKC normalization folds ² to 2
before the comparison — an invalid-format candidate does not simply fail to
match. -/
theorem verify_otp_malformed_cex :
    "1²3456".length = 6 ∧
    "1²3456".data.all Char.isDigit = false ∧
    verify_otp nfkcFold (fun _ => "123456") 60 "1²3456" = true :=
  ⟨by decide, by decide, by decide⟩

/-- Claim C7 (amended): `verify_otp` is a total boolean function (it never
throws — pyotp's `strings_equal` compares UTF-8 bytes, so no `TypeError`),
and when every per-time-step code NFKC-normalizes to a 6-digit string, a
candidate whose NFKC normalization is not a 6-digit string (wrong length, or
containing a non-digit character) matches no code of the window and is
rejected; a candidate that is not itself a 6-digit string can still be
accepted when its NFKC normalization equals a window code (see the
counterexample). -/
theorem verify_otp_total_and_malformed (nfkc : String → String) (codeAt : Int → String)
    (t : Nat) (cand : String)
    (hcode : ∀ i : Int,
      (nfkc (codeAt i)).length = 6 ∧ (nfkc (codeAt i)).data.all Char.isDigit = true) :
    (verify_otp nfkc codeAt t cand = true ∨ verify_otp nfkc codeAt t cand = false) ∧
    ((nfkc cand).length ≠ 6 ∨ (nfkc cand).data.all Char.isDigit = false →
      verify_otp nfkc codeAt t cand = false) := by
  constructor
  · cases h : verify_otp nfkc codeAt t cand
    · exact Or.inr rfl
    · exact Or.inl rfl
  · intro hbad
    have hne : ∀ i : Int, nfkc cand ≠ nfkc (codeAt i) := by
      intro i heq
      rcases hbad with hlen | hdig
      · exact hlen (heq ▸ (hcode i).1)
      · rw [heq, (hcode i).2] at hdig
        exact absurd hdig (by decide)
    rw [← Bool.not_eq_true, verify_otp_eq_true_iff]
    rintro (h | h | h) <;> exact hne _ h

/-- Witness for C7: against all-zero 6-digit codes, the 5-character candidate
"12345" and the 6-character non-digit candidate "12a456" (both NFKC-invariant)
are rejected. -/
theorem verify_otp_total_and_malformed_witness :
    verify_otp nfkcFold (fun _ => "000000") 45 "12345" = false ∧
    verify_otp nfkcFold (fun _ => "000000") 45 "12a456" = false :=
  ⟨(verify_otp_total_and_malformed nfkcFold (fun _ => "000000") 45 "12345"
      (fun _ => ⟨(by decide : (nfkcFold "000000").length = 6),
        (by decide : (nfkcFold "000000").data.all Char.isDigit = true)⟩)).2
      (Or.inl (by decide)),
   (verify_otp_total_and_malformed nfkcFold (fun _ => "000000") 45 "12a456"
      (fun _ => ⟨(by decide : (nfkcFold "000000").length = 6),
        (by decide : (nfkcFold "000000").data.all Char.isDigit = true)⟩)).2
      (Or.inr (by decide))⟩

/-! ## Theorems about the request authenticator -/

/-- Claim C9: a present `X-API-Key` value containing a non-ASCII character is
neither rejected with 401/403 nor accepted: `hmac.compare_digest` on `str`
arguments requires both strings to be ASCII-only, so `require_api_key` raises
`TypeError`, which surfaces as an internal error. -/
theorem require_api_key_nonascii_typeerror (apiKey k : String)
    (h : isAsciiStr k = false) :
    require_api_key apiKey (some k) = .typeError ∧
    (∀ s d, require_api_key apiKey (some k) ≠ .httpError s d) ∧
    (∀ v, require_api_key apiKey (some k) ≠ .ok v) := by
  have hcd : compare_digest k apiKey = .error () := by
    simp [compare_digest, h]
  refine ⟨?_, ?_, ?_⟩ <;> simp [require_api_key, hcd]

/-- Witness for C9: the key "café" (with the non-ASCII character é) makes
`require_api_key` raise `TypeError`. -/
theorem require_api_key_nonascii_typeerror_witness :
    require_api_key "k1" (some "café") = .typeError :=
  (require_api_key_nonascii_typeerror "k1" "café" (by decide)).1

/-- Counterexample to claim C4 as stated: the present key "café" is not
byte-for-byte equal to the configured key "k1", yet it is not rejected with
status 403 — the constant-time comparison raises `TypeError` instead. -/
theorem require_api_key_universal_cex :
    "café" ≠ "k1" ∧
    require_api_key "k1" (some "café") ≠ .httpError 403 "Invalid API key" ∧
    require_api_key "k1" (some "café") = .typeError := by
  refine ⟨by decide, ?_, by decide⟩
  decide

/-- Claim C4 (amended): for ASCII-only keys — the regime of the byte-for-byte
comparison — `require_api_key` rejects an absent header with 401, rejects a
mismatched key with 403, and passes an exactly equal key through; non-ASCII
input instead raises `TypeError` (see the counterexample). -/
theorem require_api_key_cases (apiKey k : String)
    (ha : isAsciiStr apiKey = true) (hk : isAsciiStr k = true) :
    require_api_key apiKey none = .httpError 401 "X-API-Key header is required" ∧
    (k ≠ apiKey → require_api_key apiKey (some k) = .httpError 403 "Invalid API key") ∧
    (k = apiKey → require_api_key apiKey (some k) = .ok k) := by
  refine ⟨rfl, ?_, ?_⟩
  · intro hne
    simp [require_api_key, compare_digest, ha, hk, hne]
  · intro heq
    simp [require_api_key, compare_digest, ha, hk, heq]

/-- Witness for C4: with the configured key "k1", the wrong key "k2" is
rejected with 403 and the exact key "k1" passes. -/
theorem require_api_key_cases_witness :
    require_api_key "k1" (some "k2") = .httpError 403 "Invalid API key" ∧
    require_api_key "k1" (some "k1") = .ok "k1" :=
  ⟨(require_api_key_cases "k1" "k2" (by decide) (by decide)).2.1 (by decide),
   (require_api_key_cases "k1" "k1" (by decide) (by decide)).2.2 rfl⟩

/-- An ASCII API key presented in the header exactly as configured passes
`require_api_key` and is handed to the downstream dependency. -/
theorem require_api_key_self (apiKey : String) (ha : isAsciiStr apiKey = true) :
    require_api_key apiKey (some apiKey) = .ok apiKey := by
  simp [require_api_key, compare_digest, ha]

/-- With the API-key dependency satisfied and both headers present,
`require_hmac_signature` is the timestamp-parse / freshness / signature
pipeline. -/
theorem require_hmac_signature_body (apiKey : String) (hmacHex : String → String → String)
    (now : Int) (ts sig : String) (ha : isAsciiStr apiKey = true) :
    require_hmac_signature apiKey hmacHex now (some apiKey) (some ts) (some sig) =
      match pyInt ts with
      | none => .httpError 400 "X-Timestamp must be a unix integer"
      | some request_time =>
        if (now - request_time).natAbs > SIGNATURE_MAX_AGE_SECONDS then
          .httpError 401 "Request timestamp is expired"
        else
          match compare_digest sig (hmacHex apiKey ts) with
          | .error _ => .typeError
          | .ok b => if b then .ok () else .httpError 403 "Invalid request signature" := by
  simp [require_hmac_signature, require_api_key_self apiKey ha]

/-- The signature-comparison branch never yields the freshness error. -/
theorem signature_branch_ne_expired (sig x : String) :
    (match compare_digest sig x with
      | .error _ => Outcome.typeError
      | .ok b => if b then Outcome.ok () else Outcome.httpError 403 "Invalid request signature")
      ≠ Outcome.httpError 401 "Request timestamp is expired" := by
  cases h : compare_digest sig x with
  | error e => simp [h]
  | ok b => cases b <;> simp [h]

/-- Claim C3: once both headers are present and the timestamp parses to `rt`,
the request is rejected 401 "expired" exactly when `|now − rt| > 30`; every
age of at most 30 seconds passes the freshness check, in both the past and
the future direction. -/
theorem hmac_signature_freshness (apiKey : String) (hmacHex : String → String → String)
    (now rt : Int) (ts sig : String)
    (ha : isAsciiStr apiKey = true) (hts : pyInt ts = some rt) :
    (require_hmac_signature apiKey hmacHex now (some apiKey) (some ts) (some sig)
        = .httpError 401 "Request timestamp is expired" ↔ (now - rt).natAbs > 30) ∧
    ((now - rt).natAbs ≤ 30 →
      require_hmac_signature apiKey hmacHex now (some apiKey) (some ts) (some sig)
        ≠ .httpError 401 "Request timestamp is expired") := by
  rw [require_hmac_signature_body apiKey hmacHex now ts sig ha, hts]
  by_cases hage : (now - rt).natAbs > 30
  · constructor
    · simp [SIGNATURE_MAX_AGE_SECONDS, hage]
    · intro hle
      omega
  · have hite : ¬ ((now - rt).natAbs > SIGNATURE_MAX_AGE_SECONDS) := hage
    constructor
    · simp only [hite, if_false]
      constructor
      · intro h
        exact absurd h (signature_branch_ne_expired sig (hmacHex apiKey ts))
      · intro h
        exact absurd h hage
    · intro _
      simp only [hite, if_false]
      exact signature_branch_ne_expired sig (hmacHex apiKey ts)

/-- Witness for C3 at `now = 1000`: timestamps 969 (age 31, past) and 1031
(age 31, future) are rejected as expired, while 970 and 1030 (age 30) pass
the freshness check. -/
theorem hmac_signature_freshness_witness :
    require_hmac_signature "k1" (fun _ _ => "e3") 1000 (some "k1") (some "969") (some "e3")
      = .httpError 401 "Request timestamp is expired" ∧
    require_hmac_signature "k1" (fun _ _ => "e3") 1000 (some "k1") (some "1031") (some "e3")
      = .httpError 401 "Request timestamp is expired" ∧
    require_hmac_signature "k1" (fun _ _ => "e3") 1000 (some "k1") (some "970") (some "e3")
      ≠ .httpError 401 "Request timestamp is expired" ∧
    require_hmac_signature "k1" (fun _ _ => "e3") 1000 (some "k1") (some "1030") (some "e3")
      ≠ .httpError 401 "Request timestamp is expired" :=
  ⟨(hmac_signature_freshness "k1" (fun _ _ => "e3") 1000 969 "969" "e3"
      (by decide) (by decide)).1.mpr (by decide),
   (hmac_signature_freshness "k1" (fun _ _ => "e3") 1000 1031 "1031" "e3"
      (by decide) (by decide)).1.mpr (by decide),
   (hmac_signature_freshness "k1" (fun _ _ => "e3") 1000 970 "970" "e3"
      (by decide) (by decide)).2 (by decide),
   (hmac_signature_freshness "k1" (fun _ _ => "e3") 1000 1030 "1030" "e3"
      (by decide) (by decide)).2 (by decide)⟩

/-- Counterexample to claim C2 as stated: the provided signature "ÿ" differs
from the expected digest, yet the request is not rejected with 403 — the
constant-time comparison raises `TypeError` on the non-ASCII signature. -/
theorem hmac_signature_universal_cex :
    "ÿ" ≠ (fun _ _ : String => "aa") "k1" "100" ∧
    require_hmac_signature "k1" (fun _ _ => "aa") 100 (some "k1") (some "100") (some "ÿ")
      ≠ .httpError 403 "Invalid request signature" ∧
    require_hmac_signature "k1" (fun _ _ => "aa") 100 (some "k1") (some "100") (some "ÿ")
      = .typeError :=
  ⟨by decide, by decide, by decide⟩

/-- Claim C2 (amended): the expected signature is the HMAC-SHA256 hex digest
keyed by the API key over the raw `X-Timestamp` header string exactly as
provided (the parsed integer `rt` plays no role in it), and a provided ASCII
signature differing from this digest is rejected with 403 by the constant-time
comparison, while the exact digest passes; a non-ASCII provided signature
instead raises `TypeError` (see the counterexample). -/
theorem hmac_signature_expected_digest (apiKey : String)
    (hmacHex : String → String → String) (now rt : Int) (ts sig : String)
    (ha : isAsciiStr apiKey = true) (hts : pyInt ts = some rt)
    (hfresh : (now - rt).natAbs ≤ 30)
    (hsig : isAsciiStr sig = true) (hexp : isAsciiStr (hmacHex apiKey ts) = true) :
    (sig ≠ hmacHex apiKey ts →
      require_hmac_signature apiKey hmacHex now (some apiKey) (some ts) (some sig)
        = .httpError 403 "Invalid request signature") ∧
    (sig = hmacHex apiKey ts →
      require_hmac_signature apiKey hmacHex now (some apiKey) (some ts) (some sig)
        = .ok ()) := by
  rw [require_hmac_signature_body apiKey hmacHex now ts sig ha, hts]
  have hite : ¬ ((now - rt).natAbs > SIGNATURE_MAX_AGE_SECONDS) := by
    simp only [SIGNATURE_MAX_AGE_SECONDS]
    omega
  have hcd : compare_digest sig (hmacHex apiKey ts) = .ok (sig == hmacHex apiKey ts) := by
    simp [compare_digest, hsig, hexp]
  constructor
  · intro hne
    simp [hite, hcd, hne]
  · intro heq
    subst heq
    simp [hite, compare_digest, hsig]

/-- Witness for C2: with digest "ab01" expected over the raw timestamp "100",
the wrong signature "bad" is rejected 403 and the exact digest passes. -/
theorem hmac_signature_expected_digest_witness :
    require_hmac_signature "k1" (fun _ _ => "ab01") 100 (some "k1") (some "100") (some "bad")
      = .httpError 403 "Invalid request signature" ∧
    require_hmac_signature "k1" (fun _ _ => "ab01") 100 (some "k1") (some "100") (some "ab01")
      = .ok () :=
  ⟨(hmac_signature_expected_digest "k1" (fun _ _ => "ab01") 100 100 "100" "bad"
      (by decide) (by decide) (by decide) (by decide) (by decide)).1 (by decide),
   (hmac_signature_expected_digest "k1" (fun _ _ => "ab01") 100 100 "100" "ab01"
      (by decide) (by decide) (by decide) (by decide) (by decide)).2 rfl⟩

/-- Claim C6: after the API key is validated, a missing `X-Timestamp` or
`X-Signature` header is rejected 401, and an unparseable timestamp is
rejected 400 — in each case independently of the clock and of the signature
computation, so before any freshness or signature check. -/
theorem hmac_signature_header_errors (apiKey : String) (ha : isAsciiStr apiKey = true) :
    (∀ (hmacHex : String → String → String) (now : Int) (x_signature : Option String),
      require_hmac_signature apiKey hmacHex now (some apiKey) none x_signature
        = .httpError 401 "X-Timestamp header is required") ∧
    (∀ (hmacHex : String → String → String) (now : Int) (ts : String),
      require_hmac_signature apiKey hmacHex now (some apiKey) (some ts) none
        = .httpError 401 "X-Signature header is required") ∧
    (∀ (hmacHex : String → String → String) (now : Int) (ts sig : String),
      pyInt ts = none →
      require_hmac_signature apiKey hmacHex now (some apiKey) (some ts) (some sig)
        = .httpError 400 "X-Timestamp must be a unix integer") := by
  have hk := require_api_key_self apiKey ha
  refine ⟨?_, ?_, ?_⟩
  · intro hmacHex now x_signature
    simp [require_hmac_signature, hk]
  · intro hmacHex now ts
    simp [require_hmac_signature, hk]
  · intro hmacHex now ts sig hts
    simp [require_hmac_signature, hk, hts]

/-- Witness for C6: a missing timestamp header, a missing signature header,
and the unparseable timestamp "abc" are each rejected as claimed. -/
theorem hmac_signature_header_errors_witness :
    require_hmac_signature "k1" (fun _ _ => "e3") 50 (some "k1") none (some "s")
      = .httpError 401 "X-Timestamp header is required" ∧
    require_hmac_signature "k1" (fun _ _ => "e3") 50 (some "k1") (some "100") none
      = .httpError 401 "X-Signature header is required" ∧
    require_hmac_signature "k1" (fun _ _ => "e3") 50 (some "k1") (some "abc") (some "s")
      = .httpError 400 "X-Timestamp must be a unix integer" :=
  ⟨(hmac_signature_header_errors "k1" (by decide)).1 (fun _ _ => "e3") 50 (some "s"),
   (hmac_signature_header_errors "k1" (by decide)).2.1 (fun _ _ => "e3") 50 "100",
   (hmac_signature_header_errors "k1" (by decide)).2.2 (fun _ _ => "e3") 50 "abc" "s"
     (by decide)⟩

/-- Claim C10: for a stale request (parsed timestamp older or newer than 30
seconds), the outcome is the 401 "expired" rejection for every provided
signature value, and the outcome does not depend on the HMAC digest function
at all — the expected signature is never consulted. -/
theorem freshness_precedes_signature (apiKey : String)
    (hmacHex : String → String → String) (now rt : Int) (ts : String)
    (ha : isAsciiStr apiKey = true) (hts : pyInt ts = some rt)
    (hstale : (now - rt).natAbs > 30) :
    (∀ sig : String,
      require_hmac_signature apiKey hmacHex now (some apiKey) (some ts) (some sig)
        = .httpError 401 "Request timestamp is expired") ∧
    (∀ (g : String → String → String) (sig : Option String),
      require_hmac_signature apiKey g now (some apiKey) (some ts) sig
        = require_hmac_signature apiKey hmacHex now (some apiKey) (some ts) sig) := by
  have hk := require_api_key_self apiKey ha
  have hexpired : ∀ (g : String → String → String) (sig : String),
      require_hmac_signature apiKey g now (some apiKey) (some ts) (some sig)
        = .httpError 401 "Request timestamp is expired" := by
    intro g sig
    rw [require_hmac_signature_body apiKey g now ts sig ha, hts]
    simp [SIGNATURE_MAX_AGE_SECONDS, hstale]
  refine ⟨hexpired hmacHex, ?_⟩
  intro g sig
  cases sig with
  | none => simp [require_hmac_signature, hk]
  | some s => rw [hexpired g s, hexpired hmacHex s]

/-- Witness for C10: at `now = 200` with timestamp "100" (age 100), the
request is expired whatever the signature, and two different digest functions
produce the same outcome. -/
theorem freshness_precedes_signature_witness :
    require_hmac_signature "k1" (fun _ _ => "x1") 200 (some "k1") (some "100") (some "zz")
      = .httpError 401 "Request timestamp is expired" ∧
    require_hmac_signature "k1" (fun _ _ => "x2") 200 (some "k1") (some "100") (some "zz")
      = require_hmac_signature "k1" (fun _ _ => "x1") 200 (some "k1") (some "100")
          (some "zz") :=
  ⟨(freshness_precedes_signature "k1" (fun _ _ => "x1") 200 100 "100"
      (by decide) (by decide) (by decide)).1 "zz",
   (freshness_precedes_signature "k1" (fun _ _ => "x1") 200 100 "100"
      (by decide) (by decide) (by decide)).2 (fun _ _ => "x2") (some "zz")⟩

/-! ## Theorems about startup configuration -/

/-- Claim C8: constructing the settings succeeds exactly when `API_KEY` is
non-empty, `OTP_SECRET` is non-empty, and the secret is valid base32; in every
other case initialization fails fatally before anything can serve, so no TOTP
or authenticator operation (all of which consume a constructed `Settings`)
ever runs with an invalid configuration, and a successfully constructed
`Settings` carries exactly the validated environment values. -/
theorem loadSettings_ok_iff_valid (validBase32 : String → Bool)
    (api_key otp_secret : String) :
    ((∃ s, loadSettings validBase32 api_key otp_secret = .ok s) ↔
      api_key ≠ "" ∧ otp_secret ≠ "" ∧ validBase32 otp_secret = true) ∧
    (∀ s, loadSettings validBase32 api_key otp_secret = .ok s →
      s.API_KEY = api_key ∧ s.OTP_SECRET = otp_secret) := by
  constructor
  · constructor
    · rintro ⟨s, hs⟩
      by_cases hk : api_key = "" <;> by_cases ho : otp_secret = "" <;>
        by_cases hb : validBase32 otp_secret = true <;>
        simp [loadSettings, hk, ho, hb] at hs ⊢
    · rintro ⟨hk, ho, hb⟩
      exact ⟨⟨api_key, otp_secret⟩, by simp [loadSettings, hk, ho, hb]⟩
  · intro s hs
    by_cases hk : api_key = "" <;> by_cases ho : otp_secret = "" <;>
      by_cases hb : validBase32 otp_secret = true <;>
      simp [loadSettings, hk, ho, hb] at hs <;>
      simp [← hs]

/-- Witness for C8: a non-empty key and decodable secret load, and the
validity conditions evaluate as expected on that input. -/
theorem loadSettings_ok_iff_valid_witness :
    ∃ s, loadSettings (fun t => t == "JBSWY3DP") "k1" "JBSWY3DP" = .ok s :=
  (loadSettings_ok_iff_valid (fun t => t == "JBSWY3DP") "k1" "JBSWY3DP").1.mpr
    ⟨by decide, by decide, by decide⟩

end TwoFAuto
